import Mathlib

/-
Verification of the PDF-manipulation core of IatePDFs.

The repository ships two near-duplicate GTK applications
(`gtk4IatePDFs.py` and `IAtePDFs.py`) whose document operations are
embedded here as pure Lean functions: a document is its page sequence
(pages abstracted as values of a type `α`) together with an encryption
flag, and the filesystem effect of each operation is made explicit in the
result record (content written to the output path, directory creation,
toast messages, the processing flag).
-/

namespace IatePDFs

/-- A PDF document as the operations see it once `PdfReader` has opened
it: its page sequence and whether it is encrypted. Pages are abstract
values of `α`; a readable document is modelled by its page list. -/
structure Doc (α : Type) where
  pages : List α
  encrypted : Bool
deriving DecidableEq

/-- Result of an operation that writes one output file, as returned by
`compress_pdf` / `merge_pdfs` / `reorder_pdf_pages` in the source: the
`(success, message)` pair, plus the content written to the output path —
`none` means the output file was never created or modified. -/
structure OpResult (α : Type) where
  success : Bool
  message : String
  output : Option (List α)
deriving DecidableEq

/-- Resolution of one integer index against the page list, as pypdf's
page sequence does it in `reader.pages[index]` (Python sequence
semantics): a negative index counts from the end; an index that is still
out of range after that adjustment raises
`IndexError("sequence index out of range")`, modelled as `none`. -/
def pyGet (pages : List α) (i : Int) : Option α :=
  let j : Int := if i < 0 then (pages.length : Int) + i else i
  if 0 ≤ j ∧ j < (pages.length : Int) then pages[j.toNat]? else none

/-- The page-collection loop of `reorder_pdf_pages`:
`for index in new_order_indices: writer.add_page(reader.pages[index])`.
It resolves every index in order; the first failing index aborts the
whole run (`none`). This loop runs before the output file is opened. -/
def collectPages (pages : List α) : List Int → Option (List α)
  | [] => some []
  | i :: rest =>
    match pyGet pages i, collectPages pages rest with
    | some p, some ps => some (p :: ps)
    | _, _ => none

/-- `reorder_pdf_pages(input_path, output_path, new_order_indices)` from
`gtk4IatePDFs.py` (identical to `PdfToolWindow._reorder_pdf_pages` in
`IAtePDFs.py`): collect `reader.pages[index]` for each index of the
order, then open the output path and write. An `IndexError` inside the
loop is caught by the `except` clause, so the output file is never
opened on a bad index (`output := none`). -/
def reorder_pdf_pages (pages : List α) (order : List Int) : OpResult α :=
  match collectPages pages order with
  | some ps =>
    { success := true, message := "Successfully reordered pages.", output := some ps }
  | none =>
    { success := false
      message := "Failed to reorder PDF: sequence index out of range"
      output := none }

/-- `merge_pdfs(pdf_paths, output_path)`: append the complete page
sequence of each input document, in list order, then write. Inputs are
the already-readable documents' page lists, so the `except` branch
(unopenable input, unwritable output) is outside the model. -/
def merge_pdfs (docs : List (List α)) : OpResult α :=
  { success := true
    message := "Successfully merged " ++ toString docs.length ++ " files."
    output := some docs.flatten }

/-- Output filename of the i-th split page (0-based `i`):
`os.path.join(output_dir, f"{base_name}_page_{i + 1}.pdf")` — 1-based in
the filename. -/
def splitFileName (outputDir baseName : String) (i : Nat) : String :=
  outputDir ++ "/" ++ baseName ++ "_page_" ++ toString (i + 1) ++ ".pdf"

/-- The write loop of `_split_pdf`:
`for i, page in enumerate(reader.pages)` writes a one-page document per
page, counting from `startIndex`. -/
def splitFiles (outputDir baseName : String) : List α → Nat → List (String × List α)
  | [], _ => []
  | p :: rest, i =>
    (splitFileName outputDir baseName i, [p]) :: splitFiles outputDir baseName rest (i + 1)

/-- Result of `PdfToolWindow._split_pdf`: the `(success, message)` pair,
whether `os.makedirs(output_dir, exist_ok=True)` ran (the output
directory is created when absent), and the filename/content pairs
written, in write order. -/
structure SplitResult (α : Type) where
  success : Bool
  message : String
  dirEnsured : Bool
  files : List (String × List α)
deriving DecidableEq

/-- `PdfToolWindow._split_pdf(input_path, output_dir)` from
`IAtePDFs.py`: open the source, ensure the output directory exists, then
write one single-page file per source page. Iterating the pages of an
encrypted document raises inside pypdf, caught by the `except` clause —
but `os.makedirs` has already run at that point. -/
def split_pdf (doc : Doc α) (outputDir baseName : String) : SplitResult α :=
  if doc.encrypted then
    { success := false
      message := "Failed to split PDF: File has not been decrypted"
      dirEnsured := true
      files := [] }
  else
    { success := true
      message := "Successfully split into " ++ toString doc.pages.length ++ " pages."
      dirEnsured := true
      files := splitFiles outputDir baseName doc.pages 0 }

/-- Outcome of the `subprocess.run(command, check=True, ...)` call in
`compress_pdf`: either the binary could not be located
(`FileNotFoundError`) or the process ran and exited with a code,
capturing standard error. -/
inductive ToolOutcome where
  | notFound : ToolOutcome
  | exited : Nat → String → ToolOutcome
deriving DecidableEq

/-- The fixed Ghostscript argument vector built by `compress_pdf`. -/
def gsCommand (inputPath outputPath quality : String) : List String :=
  ["gs", "-sDEVICE=pdfwrite", "-dCompatibilityLevel=1.4",
   "-dPDFSETTINGS=/" ++ quality, "-dNOPAUSE", "-dQUIET", "-dBATCH",
   "-sOutputFile=" ++ outputPath, inputPath]

/-- Result of `compress_pdf`: the `(success, message)` pair, the argument
vector that was built, and whether the subprocess was launched at all —
when it was not, no bytes can have been written to the output path. -/
structure CompressResult where
  success : Bool
  message : String
  command : List String
  toolInvoked : Bool
deriving DecidableEq

/-- `compress_pdf(input_path, output_path, quality)` from
`gtk4IatePDFs.py` (identical to `PdfToolWindow._compress_pdf` in
`IAtePDFs.py`): build the Ghostscript command and run it with
`check=True`; `FileNotFoundError` yields the missing-tool message,
`CalledProcessError` (non-zero exit) yields a message wrapping the
captured standard error. -/
def compress_pdf (inputPath outputPath quality : String)
    (outcome : ToolOutcome) : CompressResult :=
  match outcome with
  | .notFound =>
    { success := false
      message := "Error: Ghostscript (gs) is not installed or not in your PATH."
      command := gsCommand inputPath outputPath quality
      toolInvoked := false }
  | .exited 0 _ =>
    { success := true
      message := "Compression successful."
      command := gsCommand inputPath outputPath quality
      toolInvoked := true }
  | .exited (_ + 1) stderrText =>
    { success := false
      message := "Ghostscript failed: " ++ stderrText
      command := gsCommand inputPath outputPath quality
      toolInvoked := true }

/-- The UI state the task gate reads and writes: the global
`is_processing` flag and the toast messages shown so far, in order. -/
structure UiState where
  is_processing : Bool
  toasts : List String
deriving DecidableEq

/-- `PdfToolWindow._set_processing_state(is_processing, message)`: set
the flag; a toast with `message` is shown only when entering the
processing state. -/
def set_processing_state (s : UiState) (b : Bool) (message : String) : UiState :=
  { is_processing := b
    toasts := if b then s.toasts ++ [message] else s.toasts }

/-- The start gate (`_on_drop` in `gtk4IatePDFs.py` together with the
`_run_*` task starters): when `is_processing` is already set, show the
"task already in progress" toast and change nothing else; otherwise
enter the processing state with the task's start message. -/
def tryStartTask (s : UiState) (startMessage : String) : UiState :=
  if s.is_processing then
    { s with toasts := s.toasts ++ ["A task is already in progress."] }
  else
    set_processing_state s true startMessage

/-- `PdfToolWindow._on_task_finished(success, message)` from
`IAtePDFs.py`: clear the processing flag via
`_set_processing_state(False)` and toast the outcome message; the
success flag only governs merge-list clearing, not the state machine. -/
def on_task_finished (s : UiState) (_success : Bool) (message : String) : UiState :=
  let s1 := set_processing_state s false ""
  { s1 with toasts := s1.toasts ++ [message] }

/-- One entry of the reorder grid: a `PdfPageWidget` carries the page's
`original_page_index` and (in `IAtePDFs.py`) an `is_deleted` flag. -/
structure PageEntry where
  original_page_index : Nat
  is_deleted : Bool
deriving DecidableEq

/-- The entries created by `_load_pdf_for_reordering`: one widget per
page index `0 .. n-1`, none marked deleted. -/
def loadEntries (n : Nat) : List PageEntry :=
  (List.range n).map fun i => { original_page_index := i, is_deleted := false }

/-- `Gtk.FlowBox.insert(child, position)`: place the child at the given
position; a position past the end appends. -/
def insertAt (xs : List α) (pos : Nat) (a : α) : List α :=
  xs.take pos ++ a :: xs.drop pos

/-- The drop handler `PdfPageWidget._on_drop`: dropping a widget on
itself is a no-op; otherwise the target's index is read before the
source is removed, the source is removed, and it is re-inserted at that
pre-removal index. -/
def movePage (xs : List α) (fromPos toPos : Nat) : List α :=
  if fromPos = toPos then xs
  else
    match xs[fromPos]? with
    | none => xs
    | some src => insertAt (xs.eraseIdx fromPos) toPos src

/-- `PdfPageWidget._on_delete_toggled` reached through position `pos`:
flip the `is_deleted` flag of the entry at that position; the entry
stays in the list. -/
def toggleDeleted : List PageEntry → Nat → List PageEntry
  | [], _ => []
  | e :: rest, 0 => { e with is_deleted := !e.is_deleted } :: rest
  | e :: rest, pos + 1 => e :: toggleDeleted rest pos

/-- The list comprehension of `_run_reorder_task`:
`[child.original_page_index for child in flow_box_children if not child.is_deleted]` —
original indices of the non-deleted entries, in current widget order.
This list is the order argument handed to `_reorder_pdf_pages`. -/
def resolveOrder (entries : List PageEntry) : List Nat :=
  (entries.filter fun e => !e.is_deleted).map fun e => e.original_page_index

/-- Observable outcome of loading a file into the reorder view: the
error toast (if any), the original indices of the page widgets created,
and whether `reorder_source_path` was set. -/
structure LoadResult where
  toast : Option String
  widgets : List Nat
  sourceSet : Bool
deriving DecidableEq

/-- `PdfToolWindow._load_pdf_for_reordering` from `gtk4IatePDFs.py`:
an encrypted source and a zero-page source each toast an error and
return before any widget is created or the source path is set. -/
def load_pdf_for_reordering_gtk4 (doc : Doc α) : LoadResult :=
  if doc.encrypted then
    { toast := some "Could not load: The PDF is encrypted."
      widgets := []
      sourceSet := false }
  else if doc.pages.length = 0 then
    { toast := some "PDF is empty or cannot be read."
      widgets := []
      sourceSet := false }
  else
    { toast := none
      widgets := List.range doc.pages.length
      sourceSet := true }

/-- `PdfToolWindow._load_pdf_for_reordering` from `IAtePDFs.py`: only
encryption is checked; for any unencrypted source — zero pages included
— `reorder_source_path` is set and one widget per page is created. -/
def load_pdf_for_reordering_iate (doc : Doc α) : LoadResult :=
  if doc.encrypted then
    { toast := some "Cannot load encrypted PDF."
      widgets := []
      sourceSet := false }
  else
    { toast := none
      widgets := List.range doc.pages.length
      sourceSet := true }

end IatePDFs

namespace IatePDFs

/-- A non-negative index below the page count resolves to that page. -/
theorem pyGet_ofNat (pages : List α) (i : Nat) (h : i < pages.length) :
    pyGet pages (i : Int) = some pages[i] := by
  simp only [pyGet]
  have hnonneg : ¬ ((i : Int) < 0) := by omega
  rw [if_neg hnonneg]
  have hcond : (0 : Int) ≤ (i : Int) ∧ (i : Int) < (pages.length : Int) := by
    constructor <;> omega
  rw [if_pos hcond]
  simp [List.getElem?_eq_getElem h]

/-- A negative index at least `-(page count)` resolves to the page that
far from the end. -/
theorem pyGet_neg (pages : List α) (d : α) (i : Int)
    (h1 : -(pages.length : Int) ≤ i) (h2 : i < 0) :
    pyGet pages i = some (pages.getD ((pages.length : Int) + i).toNat d) := by
  simp only [pyGet]
  rw [if_pos h2]
  have hcond : (0 : Int) ≤ (pages.length : Int) + i ∧
      (pages.length : Int) + i < (pages.length : Int) := by
    constructor <;> omega
  rw [if_pos hcond]
  have hlt : ((pages.length : Int) + i).toNat < pages.length := by omega
  rw [List.getElem?_eq_getElem hlt, List.getD_eq_getElem pages d hlt]

/-- Collecting a list of in-range indices succeeds and maps each index
through the page list. -/
theorem collectPages_mapFin (pages : List α) (order : List (Fin pages.length)) :
    collectPages pages (order.map fun i => (i.val : Int)) =
      some (order.map pages.get) := by
  induction order with
  | nil => rfl
  | cons i rest ih =>
    simp only [List.map_cons, collectPages, ih, pyGet_ofNat pages i.val i.isLt]
    rfl

/-- One unresolvable index anywhere in the order makes the whole
collection fail. -/
theorem collectPages_eq_none (pages : List α) (order : List Int) (i : Int)
    (hmem : i ∈ order) (hbad : pyGet pages i = none) :
    collectPages pages order = none := by
  induction order with
  | nil => cases hmem
  | cons j rest ih =>
    rcases List.mem_cons.mp hmem with hj | hrest
    · subst hj
      simp only [collectPages, hbad]
    · simp only [collectPages, ih hrest]
      cases pyGet pages j <;> rfl

/-- The index equal to the page count is out of range. -/
theorem pyGet_length_eq_none (pages : List α) :
    pyGet pages (pages.length : Int) = none := by
  simp only [pyGet]
  have hnonneg : ¬ ((pages.length : Int) < 0) := by omega
  rw [if_neg hnonneg]
  have hcond : ¬ ((0 : Int) ≤ (pages.length : Int) ∧
      (pages.length : Int) < (pages.length : Int)) := by omega
  rw [if_neg hcond]

/-- Collecting a list of in-range negative indices succeeds, each
resolving from the end of the page list. -/
theorem collectPages_neg (pages : List α) (d : α) (order : List Int)
    (h : ∀ i ∈ order, -(pages.length : Int) ≤ i ∧ i < 0) :
    collectPages pages order =
      some (order.map fun i => pages.getD ((pages.length : Int) + i).toNat d) := by
  induction order with
  | nil => rfl
  | cons i rest ih =>
    have hi := h i (List.mem_cons_self i rest)
    have hrest : ∀ j ∈ rest, -(pages.length : Int) ≤ j ∧ j < 0 := by
      intro j hj
      exact h j (List.mem_cons_of_mem i hj)
    simp only [collectPages, pyGet_neg pages d i hi.1 hi.2, ih hrest, List.map_cons]

/-- The split loop writes one file per page. -/
theorem splitFiles_length (dir base : String) (ps : List α) (k : Nat) :
    (splitFiles dir base ps k).length = ps.length := by
  induction ps generalizing k with
  | nil => rfl
  | cons p rest ih => simp [splitFiles, ih]

/-- The i-th file written by the split loop started at `k` is the
single-page document of the i-th remaining page, named with index
`k + i`. -/
theorem splitFiles_getElem? (dir base : String) (ps : List α) (k i : Nat) :
    (splitFiles dir base ps k)[i]? =
      (ps[i]?).map fun p => (splitFileName dir base (k + i), [p]) := by
  induction ps generalizing k i with
  | nil => simp [splitFiles]
  | cons p rest ih =>
    cases i with
    | zero => simp [splitFiles]
    | succ n =>
      simp only [splitFiles, List.getElem?_cons_succ, ih (k + 1) n]
      have harith : k + 1 + n = k + (n + 1) := by omega
      rw [harith]

/-- C1: for every readable source document and every order of page
indices each below the page count at open time (encoded by the type
`Fin pages.length`), `reorder_pdf_pages` succeeds and the output's page
sequence equals the order mapped through the source's pages, repeats
included; no permutation check is performed, so duplicates and
omissions both succeed. -/
theorem extractOrdered_inRange (pages : List α) (order : List (Fin pages.length)) :
    reorder_pdf_pages pages (order.map fun i => (i.val : Int)) =
      { success := true
        message := "Successfully reordered pages."
        output := some (order.map pages.get) } := by
  simp only [reorder_pdf_pages, collectPages_mapFin]

/-- C2: on the loaded reorder state of a 4-page document, moving
position 3 to position 0 gives original-index order `[3,0,1,2]`; then
toggling deletion at position 2 (the entry with original index 1) makes
`resolveOrder` return `[3,0,2]`, which handed to `reorder_pdf_pages` as
the order selects exactly those source pages. -/
theorem reorderState_scenario :
    (movePage (loadEntries 4) 3 0).map PageEntry.original_page_index = [3, 0, 1, 2] ∧
    resolveOrder (toggleDeleted (movePage (loadEntries 4) 3 0) 2) = [3, 0, 2] ∧
    (reorder_pdf_pages [10, 20, 30, 40]
      ((resolveOrder (toggleDeleted (movePage (loadEntries 4) 3 0) 2)).map
        fun i => (i : Int))).output = some [40, 10, 30] := by
  decide

/-- C3: an order containing the index equal to the page count makes
`reorder_pdf_pages` fail with the index-error message, and the output
file is never created or modified (page collection runs before the
output path is opened). -/
theorem extractOrdered_outOfRange (pages : List α) (order : List Int)
    (h : (pages.length : Int) ∈ order) :
    reorder_pdf_pages pages order =
      { success := false
        message := "Failed to reorder PDF: sequence index out of range"
        output := none } := by
  simp only [reorder_pdf_pages,
    collectPages_eq_none pages order (pages.length : Int) h (pyGet_length_eq_none pages)]

theorem extractOrdered_outOfRange_witness :
    reorder_pdf_pages [10, 20] [0, 2] =
      { success := false
        message := "Failed to reorder PDF: sequence index out of range"
        output := (none : Option (List Nat)) } :=
  extractOrdered_outOfRange [10, 20] [0, 2] (by decide)

/-- C4: for every non-empty list of readable documents, `merge_pdfs`
succeeds and the output is the concatenation of the inputs' page
sequences in list order — each input a contiguous block — so the output
page count is the sum of the input page counts; a single-element list
is accepted. -/
theorem merge_ok (docs : List (List α)) (_h : docs ≠ []) :
    (merge_pdfs docs).success = true ∧
    (merge_pdfs docs).output = some docs.flatten ∧
    docs.flatten.length = (docs.map List.length).sum := by
  refine ⟨rfl, rfl, ?_⟩
  simp [List.length_flatten]

theorem merge_ok_witness :
    (merge_pdfs [[1, 2], [3]]).success = true ∧
    (merge_pdfs [[1, 2], [3]]).output = some [1, 2, 3] ∧
    ([[1, 2], [3]] : List (List Nat)).flatten.length =
      (([[1, 2], [3]] : List (List Nat)).map List.length).sum :=
  merge_ok [[1, 2], [3]] (by decide)

/-- C5: on a readable, unencrypted N-page document, `split_pdf` ensures
the output directory exists, succeeds reporting the count N, and writes
exactly N files, the i-th named `outputDir/basename_page_(i+1).pdf`
(1-based in the filename) and containing exactly source page i. -/
theorem split_ok (doc : Doc α) (dir base : String) (h : doc.encrypted = false) :
    (split_pdf doc dir base).success = true ∧
    (split_pdf doc dir base).message =
      "Successfully split into " ++ toString doc.pages.length ++ " pages." ∧
    (split_pdf doc dir base).dirEnsured = true ∧
    (split_pdf doc dir base).files.length = doc.pages.length ∧
    ∀ i, (split_pdf doc dir base).files[i]? =
      (doc.pages[i]?).map fun p => (splitFileName dir base i, [p]) := by
  have hrw : split_pdf doc dir base =
      { success := true
        message := "Successfully split into " ++ toString doc.pages.length ++ " pages."
        dirEnsured := true
        files := splitFiles dir base doc.pages 0 } := by
    simp [split_pdf, h]
  rw [hrw]
  refine ⟨rfl, rfl, rfl, splitFiles_length dir base doc.pages 0, ?_⟩
  intro i
  rw [splitFiles_getElem? dir base doc.pages 0 i]
  simp

theorem split_ok_witness :
    (split_pdf (⟨[5, 6], false⟩ : Doc Nat) "out" "doc").success = true ∧
    (split_pdf (⟨[5, 6], false⟩ : Doc Nat) "out" "doc").message =
      "Successfully split into " ++ toString 2 ++ " pages." ∧
    (split_pdf (⟨[5, 6], false⟩ : Doc Nat) "out" "doc").dirEnsured = true ∧
    (split_pdf (⟨[5, 6], false⟩ : Doc Nat) "out" "doc").files.length = 2 ∧
    (split_pdf (⟨[5, 6], false⟩ : Doc Nat) "out" "doc").files[0]? =
      some ("out/doc_page_1.pdf", [5]) ∧
    (split_pdf (⟨[5, 6], false⟩ : Doc Nat) "out" "doc").files[1]? =
      some ("out/doc_page_2.pdf", [6]) := by
  have h := split_ok (⟨[5, 6], false⟩ : Doc Nat) "out" "doc" rfl
  exact ⟨h.1, h.2.1, h.2.2.1, h.2.2.2.1, h.2.2.2.2 0, h.2.2.2.2 1⟩

/-- C6: the task gate keeps at most one operation running: a start
attempt while `is_processing` is set only appends the
"task already in progress" toast and changes nothing else; a start from
idle sets the flag; and finishing — with either success value — clears
it again, so each started operation returns to idle. -/
theorem taskRunner_gate (ts : List String) (startMsg finMsg : String) (succ : Bool) :
    tryStartTask ⟨true, ts⟩ startMsg =
      ⟨true, ts ++ ["A task is already in progress."]⟩ ∧
    (tryStartTask ⟨false, ts⟩ startMsg).is_processing = true ∧
    (on_task_finished (tryStartTask ⟨false, ts⟩ startMsg) succ finMsg).is_processing =
      false := by
  refine ⟨?_, ?_, ?_⟩ <;>
    simp [tryStartTask, on_task_finished, set_processing_state]

/-- C7: `compress_pdf` builds exactly the documented Ghostscript
argument vector with tool `gs`, reports success exactly when the exit
code is 0, and on non-zero exit its message wraps the captured standard
error text. -/
theorem compress_contract (inp outp quality stderrText : String) (code : Nat) :
    (compress_pdf inp outp quality (.exited code stderrText)).command =
      ["gs", "-sDEVICE=pdfwrite", "-dCompatibilityLevel=1.4",
       "-dPDFSETTINGS=/" ++ quality, "-dNOPAUSE", "-dQUIET", "-dBATCH",
       "-sOutputFile=" ++ outp, inp] ∧
    (compress_pdf inp outp quality (.exited code stderrText)).success = (code == 0) ∧
    (compress_pdf inp outp quality (.exited code stderrText)).message =
      (if code = 0 then "Compression successful."
       else "Ghostscript failed: " ++ stderrText) := by
  cases code <;> exact ⟨rfl, rfl, rfl⟩

/-- C8: when the external binary cannot be located (`FileNotFoundError`
from `subprocess.run`), `compress_pdf` returns the missing-tool failure
naming `gs`, and the subprocess was never launched, so no bytes were
written to the output path. -/
theorem compress_missing_tool (inp outp quality : String) :
    (compress_pdf inp outp quality .notFound).success = false ∧
    (compress_pdf inp outp quality .notFound).message =
      "Error: Ghostscript (gs) is not installed or not in your PATH." ∧
    (compress_pdf inp outp quality .notFound).toolInvoked = false :=
  ⟨rfl, rfl, rfl⟩

/-- C9 counterexample: in `IAtePDFs.py`, loading an unencrypted
zero-page document for reordering reports no error and does set the
reorder source, contrary to the claim that every zero-page source fails
and leaves the source unset. -/
theorem load_empty_iate_counterexample :
    (load_pdf_for_reordering_iate (⟨[], false⟩ : Doc Nat)).toast = none ∧
    (load_pdf_for_reordering_iate (⟨[], false⟩ : Doc Nat)).sourceSet = true := by
  decide

/-- C9 (amended): both variants reject every encrypted source with an
error toast, creating no widgets and leaving the source unset; for a
zero-page unencrypted source, the `gtk4IatePDFs.py` variant fails the
same way with the empty-document message, while the `IAtePDFs.py`
variant reports no error, creates no widgets, and sets the source. -/
theorem load_error_handling (pages : List α) :
    load_pdf_for_reordering_gtk4 (⟨pages, true⟩ : Doc α) =
      ⟨some "Could not load: The PDF is encrypted.", [], false⟩ ∧
    load_pdf_for_reordering_iate (⟨pages, true⟩ : Doc α) =
      ⟨some "Cannot load encrypted PDF.", [], false⟩ ∧
    load_pdf_for_reordering_gtk4 (⟨[], false⟩ : Doc α) =
      ⟨some "PDF is empty or cannot be read.", [], false⟩ ∧
    load_pdf_for_reordering_iate (⟨[], false⟩ : Doc α) =
      ⟨none, [], true⟩ := by
  refine ⟨rfl, rfl, rfl, ?_⟩
  simp [load_pdf_for_reordering_iate]

/-- C10: an order made entirely of negative indices `-k` with
`1 ≤ k ≤ N` does not fail: `reorder_pdf_pages` succeeds and each entry
`-k` yields source page `N - k` (Python negative indexing), despite the
documented precondition `0 ≤ index < pageCountAtOpenTime`. -/
theorem extractOrdered_negative (pages : List α) (d : α) (order : List Int)
    (h : ∀ i ∈ order, -(pages.length : Int) ≤ i ∧ i < 0) :
    reorder_pdf_pages pages order =
      { success := true
        message := "Successfully reordered pages."
        output :=
          some (order.map fun i => pages.getD ((pages.length : Int) + i).toNat d) } := by
  simp only [reorder_pdf_pages, collectPages_neg pages d order h]

theorem extractOrdered_negative_witness :
    reorder_pdf_pages [10, 20, 30] [-1, -3] =
      { success := true
        message := "Successfully reordered pages."
        output := some [30, 10] } :=
  extractOrdered_negative [10, 20, 30] 0 [-1, -3] (by decide)

end IatePDFs
